import Mathlib

/-!
Verification of the ADC board control core: analog conversion, packet codec,
PSU control state machine, USB transport resource model, device registry and
the USB enumeration utility.

Physical quantities (volts, milliamps) are modelled as exact rationals; the
C++ values appearing in the claims (30000.0, 2.0, 10.0, 0.5) are all exactly
representable, so the rational model is faithful on them.  DAC and ADC codes
are integers clamped to [0, 65535].
-/

namespace ADCBoard

/-! ## Analog Conversion -/

/-- Round half away from zero: the fixed, documented rounding rule of the
conversion layer. -/
def roundHalfAwayFromZero (x : ℚ) : ℤ :=
  if 0 ≤ x then ⌊x + 1/2⌋ else ⌈x - 1/2⌉

/-- Clamp an integer code into the 16-bit range [0, 65535]. -/
def clampCode (n : ℤ) : ℤ := max 0 (min n 65535)

/-- Modelled from the spec: the full-scale reference of the DAC/ADC
(Heinzinger.cpp and AnalogPSU.h are not in the sources).  The data model
states that max_input_voltage is the full-scale reference for the DAC/ADC,
so the reference equals the configured max_input_voltage. -/
def full_scale_reference (max_input_voltage : ℚ) : ℚ := max_input_voltage

/-- Modelled from the spec: VoltsToCode(value, max_physical, max_input_voltage)
= clamp(round(value / max_physical * max_input_voltage / full_scale_reference
* 65535), 0, 65535) (the conversion code is not in the sources). -/
def VoltsToCode (value max_physical max_input_voltage : ℚ) : ℤ :=
  clampCode (roundHalfAwayFromZero
    (value / max_physical * max_input_voltage /
      full_scale_reference max_input_voltage * 65535))

/-- Modelled from the spec: CodeToVolts is the exact inverse scaling of
VoltsToCode, used for ADC readback (the conversion code is not in the
sources). -/
def CodeToVolts (code : ℤ) (max_physical max_input_voltage : ℚ) : ℚ :=
  (code : ℚ) / 65535 * full_scale_reference max_input_voltage /
    max_input_voltage * max_physical

/-! ## Error taxonomy -/

/-- Error taxonomy of the core, from the error-handling design. -/
inductive PSUError where
  | ConfigurationError
  | OutOfRangeError
  | DeviceNotFoundError
  | InterfaceBusyError
  | IOError
  | TimeoutError
  | ChecksumError
  | DeviceFaulted
  | CapabilityNotSupported
  | HardwareError
  | SpecMismatchError
  deriving DecidableEq, Repr

/-! ## Packet Codec -/

/-- Packet command opcodes. -/
inductive Command where
  | SET_DAC_VOLTAGE
  | SET_DAC_CURRENT
  | READ_ADC
  | SET_RELAY
  deriving DecidableEq, Repr

/-- Header byte identifying each command. -/
def commandByte : Command → ℕ
  | .SET_DAC_VOLTAGE => 0x01
  | .SET_DAC_CURRENT => 0x02
  | .READ_ADC => 0x03
  | .SET_RELAY => 0x04

/-- Inverse of commandByte, for decoding. -/
def byteToCommand (b : ℕ) : Option Command :=
  if b = 0x01 then some .SET_DAC_VOLTAGE
  else if b = 0x02 then some .SET_DAC_CURRENT
  else if b = 0x03 then some .READ_ADC
  else if b = 0x04 then some .SET_RELAY
  else none

/-- Additive checksum over the payload bytes, modulo 256. -/
def additiveChecksum (payload : List ℕ) : ℕ := payload.sum % 256

/-- Big-endian encoding of a 16-bit value as two bytes. -/
def encodeU16 (v : ℕ) : List ℕ := [v / 256 % 256, v % 256]

/-- Modelled from the spec: Encode builds the fixed-layout packet — header
byte, big-endian 16-bit payload, trailing additive checksum over the payload
(the codec code is not in the sources). -/
def Encode (c : Command) (v : ℕ) : List ℕ :=
  commandByte c :: (encodeU16 v ++ [additiveChecksum (encodeU16 v)])

/-- Modelled from the spec: Decode recomputes the checksum over the payload
and fails with ChecksumError when it disagrees with the trailing byte; a
malformed length or unknown header fails with IOError (the codec code is not
in the sources). -/
def Decode (bytes : List ℕ) : Except PSUError (Command × ℕ) :=
  match bytes with
  | [h, b1, b2, ck] =>
      if ck = additiveChecksum [b1, b2] then
        match byteToCommand h with
        | some c => .ok (c, b1 * 256 + b2)
        | none => .error .IOError
      else .error .ChecksumError
  | _ => .error .IOError

/-! ## PSU Control -/

/-- Fixed-at-construction PSU configuration. -/
structure PSUConfig where
  max_voltage : ℚ
  max_current : ℚ
  max_input_voltage : ℚ
  relay_capable : Bool
  verbose : Bool
  deriving DecidableEq, Repr

/-- PSU state-machine phases. -/
inductive PSUPhase where
  | Uninitialized
  | Ready
  | Faulted
  deriving DecidableEq, Repr

/-- Mutable PSU state: phase plus the optimistic caches. -/
structure PSUState where
  phase : PSUPhase
  set_volt_cache : ℚ
  set_curr_cache : ℚ
  relay_cache : Bool
  deriving DecidableEq, Repr

/-- Outcome of a PSU operation: result, successor state, and the list of
packets written to the transport (its length is the transport call count). -/
structure OpOutcome where
  result : Except PSUError Unit
  state : PSUState
  writes : List (List ℕ)
  deriving Repr

/-- Modelled from the spec: Ready.set_voltage(v) rejects with OutOfRangeError
and no hardware write if v is outside [0, max_voltage]; otherwise converts,
encodes and writes; on transport failure transitions to Faulted with
HardwareError; on success updates the cached setpoint.  In Faulted every
operation fails with DeviceFaulted.  (Heinzinger.cpp is not in the sources;
its header declares set_voltage at src/headers/Heinzinger.h line 39.) -/
def set_voltage (cfg : PSUConfig) (s : PSUState) (transport_ok : Bool)
    (v : ℚ) : OpOutcome :=
  match s.phase with
  | .Uninitialized => ⟨.error .DeviceFaulted, s, []⟩
  | .Faulted => ⟨.error .DeviceFaulted, s, []⟩
  | .Ready =>
      if v < 0 ∨ v > cfg.max_voltage then ⟨.error .OutOfRangeError, s, []⟩
      else
        let pkt := Encode .SET_DAC_VOLTAGE
          (VoltsToCode v cfg.max_voltage cfg.max_input_voltage).toNat
        if transport_ok then ⟨.ok (), { s with set_volt_cache := v }, [pkt]⟩
        else ⟨.error .HardwareError, { s with phase := .Faulted }, [pkt]⟩

/-- Modelled from the spec: set_current is symmetric to set_voltage over
max_current (Heinzinger.cpp is not in the sources; its header declares
set_current at src/headers/Heinzinger.h line 40). -/
def set_current (cfg : PSUConfig) (s : PSUState) (transport_ok : Bool)
    (v : ℚ) : OpOutcome :=
  match s.phase with
  | .Uninitialized => ⟨.error .DeviceFaulted, s, []⟩
  | .Faulted => ⟨.error .DeviceFaulted, s, []⟩
  | .Ready =>
      if v < 0 ∨ v > cfg.max_current then ⟨.error .OutOfRangeError, s, []⟩
      else
        let pkt := Encode .SET_DAC_CURRENT
          (VoltsToCode v cfg.max_current cfg.max_input_voltage).toNat
        if transport_ok then ⟨.ok (), { s with set_curr_cache := v }, [pkt]⟩
        else ⟨.error .HardwareError, { s with phase := .Faulted }, [pkt]⟩

/-- Modelled from the spec: for relay-capable PSUs switch_on writes the relay
packet and updates the cached relay state; for relay-incapable PSUs it fails
explicitly with CapabilityNotSupported, never silently reporting an output
change (Heinzinger.cpp is not in the sources; its header declares switch_on
at src/headers/Heinzinger.h line 37). -/
def switch_on (cfg : PSUConfig) (s : PSUState) (transport_ok : Bool) :
    OpOutcome :=
  match s.phase with
  | .Uninitialized => ⟨.error .DeviceFaulted, s, []⟩
  | .Faulted => ⟨.error .DeviceFaulted, s, []⟩
  | .Ready =>
      if cfg.relay_capable then
        let pkt := Encode .SET_RELAY 1
        if transport_ok then ⟨.ok (), { s with relay_cache := true }, [pkt]⟩
        else ⟨.error .HardwareError, { s with phase := .Faulted }, [pkt]⟩
      else ⟨.error .CapabilityNotSupported, s, []⟩

/-- Modelled from the spec: switch_off mirrors switch_on with the relay
cleared (Heinzinger.cpp is not in the sources; its header declares
switch_off at src/headers/Heinzinger.h line 38). -/
def switch_off (cfg : PSUConfig) (s : PSUState) (transport_ok : Bool) :
    OpOutcome :=
  match s.phase with
  | .Uninitialized => ⟨.error .DeviceFaulted, s, []⟩
  | .Faulted => ⟨.error .DeviceFaulted, s, []⟩
  | .Ready =>
      if cfg.relay_capable then
        let pkt := Encode .SET_RELAY 0
        if transport_ok then ⟨.ok (), { s with relay_cache := false }, [pkt]⟩
        else ⟨.error .HardwareError, { s with phase := .Faulted }, [pkt]⟩
      else ⟨.error .CapabilityNotSupported, s, []⟩

/-- Modelled from the spec: Ready.read_voltage issues an ADC-read packet,
decodes the raw response from the transport, and converts the returned code
independently of any cache (Heinzinger.cpp is not in the sources; its header
declares read_voltage at src/headers/Heinzinger.h line 41). -/
def read_voltage (cfg : PSUConfig) (s : PSUState) (response : List ℕ) :
    Except PSUError ℚ × List (List ℕ) :=
  match s.phase with
  | .Uninitialized => (.error .DeviceFaulted, [])
  | .Faulted => (.error .DeviceFaulted, [])
  | .Ready =>
      let req := Encode .READ_ADC 0
      match Decode response with
      | .error e => (.error e, [req])
      | .ok (_, code) =>
          (.ok (CodeToVolts code cfg.max_voltage cfg.max_input_voltage), [req])

/-- Modelled from the spec: read_current mirrors read_voltage over
max_current (Heinzinger.cpp is not in the sources; its header declares
read_current at src/headers/Heinzinger.h line 42). -/
def read_current (cfg : PSUConfig) (s : PSUState) (response : List ℕ) :
    Except PSUError ℚ × List (List ℕ) :=
  match s.phase with
  | .Uninitialized => (.error .DeviceFaulted, [])
  | .Faulted => (.error .DeviceFaulted, [])
  | .Ready =>
      let req := Encode .READ_ADC 1
      match Decode response with
      | .error e => (.error e, [req])
      | .ok (_, code) =>
          (.ok (CodeToVolts code cfg.max_current cfg.max_input_voltage), [req])

/-! ## USB Transport and enumeration -/

/-- A USB device descriptor as read during enumeration. -/
structure USBDeviceDesc where
  idVendor : ℕ
  idProduct : ℕ
  deriving DecidableEq, Repr

/-- One slot of the platform device list: some descriptor, or none when
libusb_get_device_descriptor fails for that device. -/
abbrev DeviceSlot := Option USBDeviceDesc

/-- From src/simple_usb_info.cpp lines 80-85: a device whose descriptor read
fails is skipped (continue), and a readable descriptor matches when
idVendor = 0xA0A0 and idProduct = 0x000C. -/
def isTargetDevice (d : DeviceSlot) : Bool :=
  match d with
  | none => false
  | some desc => desc.idVendor == 0xA0A0 && desc.idProduct == 0x000C

/-- From src/simple_usb_info.cpp lines 74-111: the main loop walks the device
list in platform order and increments target_device_count exactly on the
matching devices. -/
def target_device_count (devs : List DeviceSlot) : ℕ :=
  devs.foldl (fun acc d => if isTargetDevice d then acc + 1 else acc) 0

/-- The positions of the matching devices, in platform-reported order,
counting positions from a given offset. -/
def targetPositionsFrom : List DeviceSlot → ℕ → List ℕ
  | [], _ => []
  | d :: rest, pos =>
      if isTargetDevice d then pos :: targetPositionsFrom rest (pos + 1)
      else targetPositionsFrom rest (pos + 1)

/-- The positions of the matching devices, in platform-reported order. -/
def targetPositions (devs : List DeviceSlot) : List ℕ :=
  targetPositionsFrom devs 0

/-- Modelled from the spec: Open walks the device list in platform-reported
order with a skip counter, selecting the Nth device matching the requested
vendor/product id; it fails with DeviceNotFoundError when fewer than
skip_count+1 matches exist (FGUSBBulk.h is not in the sources).  Returns the
position of the selected device in the list. -/
def openSkipAux (devs : List DeviceSlot) (pos skip : ℕ) :
    Except PSUError ℕ :=
  match devs with
  | [] => .error .DeviceNotFoundError
  | d :: rest =>
      if isTargetDevice d then
        match skip with
        | 0 => .ok pos
        | skip + 1 => openSkipAux rest (pos + 1) skip
      else openSkipAux rest (pos + 1) skip

/-- Open with skip_count, starting at the head of the platform list. -/
def openSkip (devs : List DeviceSlot) (skip : ℕ) : Except PSUError ℕ :=
  openSkipAux devs 0 skip

/-- An open claimed USB handle: the ordinal (skip_count) it was opened with
and the interface number claimed. -/
structure USBHandle where
  device_ordinal : ℕ
  interface_number : ℕ
  deriving DecidableEq, Repr

/-- The transport-layer state: the set of currently open handles, as a list. -/
structure TransportState where
  open_handles : List USBHandle
  deriving DecidableEq, Repr

/-- Modelled from the spec: Close releases the interface only for the given
handle and removes it from the open set, leaving every other handle in place
(FGUSBBulk.h is not in the sources). -/
def Close (ts : TransportState) (h : USBHandle) : TransportState :=
  ⟨ts.open_handles.filter (fun g => g ≠ h)⟩

/-- Modelled from the spec: a handle supports bulk transfers exactly while it
is open (FGUSBBulk.h is not in the sources). -/
def WriteBulk (ts : TransportState) (h : USBHandle) (bytes : List ℕ) :
    Except PSUError ℕ :=
  if h ∈ ts.open_handles then .ok bytes.length else .error .IOError

/-- Open a handle for a device ordinal: claims interface 0 and adds the
handle to the open set. -/
def OpenHandle (ts : TransportState) (ordinal : ℕ) :
    USBHandle × TransportState :=
  let h : USBHandle := ⟨ordinal, 0⟩
  (h, ⟨h :: ts.open_handles⟩)

/-! ## Device Registry -/

/-- One registry entry: logical device index, the specs registered for it,
and the identity of the PSU instance backing it. -/
structure RegistryEntry where
  device_index : ℕ
  cfg : PSUConfig
  psu_id : ℕ
  deriving DecidableEq, Repr

/-- The process-wide registry: entries, a fresh-instance counter, and the
total number of USB claim attempts performed so far. -/
structure Registry where
  entries : List RegistryEntry
  next_id : ℕ
  claim_attempts : ℕ
  deriving DecidableEq, Repr

/-- Look up the entry registered for a device index. -/
def findEntry (r : Registry) (idx : ℕ) : Option RegistryEntry :=
  r.entries.find? (fun e => e.device_index == idx)

/-- Modelled from the spec: GetOrCreate returns the existing instance when
the device index is already registered, reporting a caller error when the
supplied specs differ from the original registration; otherwise it opens the
backing USB device with skip_count = device_index (one claim attempt) and
inserts a new entry (run_psu_multi.py is not in the sources). -/
def GetOrCreate (r : Registry) (idx : ℕ) (cfg : PSUConfig) :
    Except PSUError (ℕ × Registry) :=
  match findEntry r idx with
  | some e => if e.cfg = cfg then .ok (e.psu_id, r) else .error .SpecMismatchError
  | none =>
      .ok (r.next_id,
        ⟨⟨idx, cfg, r.next_id⟩ :: r.entries, r.next_id + 1,
          r.claim_attempts + 1⟩)

/-! ## Constructor defaults -/

/-- The fields of HeinzingerVia16BitDAC fixed at construction, from
src/headers/Heinzinger.h lines 13-27. -/
structure HeinzingerVia16BitDAC where
  max_volt : ℚ
  max_curr : ℚ
  verbose : Bool
  max_analog_in_volt : ℚ
  deriving DecidableEq, Repr

/-- The constructor, from src/headers/Heinzinger.h lines 33-34: parameters
(max_voltage, max_current, verbose, max_input_voltage) stored into the
corresponding fields. -/
def mkHeinzinger (max_voltage max_current : ℚ) (verbose : Bool)
    (max_input_voltage : ℚ) : HeinzingerVia16BitDAC :=
  ⟨max_voltage, max_current, verbose, max_input_voltage⟩

/-- Construction with no arguments: every parameter takes its declared
default from src/headers/Heinzinger.h lines 33-34 (max_voltage = 30000.0,
max_current = 2.0, verbose = false, max_input_voltage = 10.0). -/
def mkHeinzingerDefault : HeinzingerVia16BitDAC :=
  mkHeinzinger 30000 2 false 10

/-! ## Theorems -/

/-- C1: for every PSU in the Ready state and every voltage v with v < 0 or
v > max_voltage (and current w outside [0, max_current]), set_voltage(v)
fails with OutOfRangeError, performs zero transport write calls, and leaves
the cached setpoints and device state unchanged; set_current is symmetric
over max_current. -/
theorem spec_C1_set_out_of_range (cfg : PSUConfig) (s : PSUState)
    (tok1 tok2 : Bool) (v w : ℚ) (hs : s.phase = .Ready)
    (hv : v < 0 ∨ v > cfg.max_voltage) (hw : w < 0 ∨ w > cfg.max_current) :
    set_voltage cfg s tok1 v = ⟨.error .OutOfRangeError, s, []⟩ ∧
    set_current cfg s tok2 w = ⟨.error .OutOfRangeError, s, []⟩ := by
  constructor
  · simp only [set_voltage, hs]
    rw [if_pos hv]
  · simp only [set_current, hs]
    rw [if_pos hw]

/-- Witness for C1 at a concrete Heinzinger-like configuration: v = 35000 on
a 30000 V limit and w = 3 on a 2 A limit are both rejected without a write. -/
theorem spec_C1_set_out_of_range_witness :
    ((⟨.Ready, 0, 0, false⟩ : PSUState).phase = .Ready) ∧
    ((35000 : ℚ) < 0 ∨
      (35000 : ℚ) > (⟨30000, 2, 10, false, false⟩ : PSUConfig).max_voltage) ∧
    ((3 : ℚ) < 0 ∨
      (3 : ℚ) > (⟨30000, 2, 10, false, false⟩ : PSUConfig).max_current) ∧
    (set_voltage ⟨30000, 2, 10, false, false⟩ ⟨.Ready, 0, 0, false⟩ true 35000
        = ⟨.error .OutOfRangeError, ⟨.Ready, 0, 0, false⟩, []⟩ ∧
      set_current ⟨30000, 2, 10, false, false⟩ ⟨.Ready, 0, 0, false⟩ true 3
        = ⟨.error .OutOfRangeError, ⟨.Ready, 0, 0, false⟩, []⟩) :=
  ⟨rfl, Or.inr (by norm_num), Or.inr (by norm_num),
    spec_C1_set_out_of_range _ _ _ _ _ _ rfl (Or.inr (by norm_num))
      (Or.inr (by norm_num))⟩

/-- C5: for every relay-incapable PSU in the Ready state, switch_on and
switch_off produce one fixed, deterministic outcome — the explicit
CapabilityNotSupported failure — independent of the transport, with no write
and with the cached relay state (indeed the whole state) unchanged; the
result is never a success, so no silent success can report the output state
as changed. -/
theorem spec_C5_relay_incapable (cfg : PSUConfig) (s : PSUState)
    (tok1 tok2 : Bool) (hs : s.phase = .Ready)
    (hcap : cfg.relay_capable = false) :
    switch_on cfg s tok1 = ⟨.error .CapabilityNotSupported, s, []⟩ ∧
    switch_off cfg s tok2 = ⟨.error .CapabilityNotSupported, s, []⟩ := by
  constructor
  · simp only [switch_on, hs, hcap]
    rfl
  · simp only [switch_off, hs, hcap]
    rfl

/-- Witness for C5 on a concrete relay-incapable Heinzinger-like PSU. -/
theorem spec_C5_relay_incapable_witness :
    ((⟨.Ready, 5000, 1, false⟩ : PSUState).phase = .Ready) ∧
    ((⟨30000, 2, 10, false, false⟩ : PSUConfig).relay_capable = false) ∧
    (switch_on ⟨30000, 2, 10, false, false⟩ ⟨.Ready, 5000, 1, false⟩ true
        = ⟨.error .CapabilityNotSupported, ⟨.Ready, 5000, 1, false⟩, []⟩ ∧
      switch_off ⟨30000, 2, 10, false, false⟩ ⟨.Ready, 5000, 1, false⟩ false
        = ⟨.error .CapabilityNotSupported, ⟨.Ready, 5000, 1, false⟩, []⟩) :=
  ⟨rfl, rfl, spec_C5_relay_incapable _ _ _ _ rfl rfl⟩

/-- C6: for every PSU in the Ready state, the value returned by read_voltage
(and read_current) is a function only of the ADC code decoded from the
hardware response and the conversion parameters: two runs differing only in
cache contents but receiving the same response return the same measured
value, and on a well-formed response carrying code that value is exactly
CodeToVolts of the code. -/
theorem spec_C6_read_cache_independent (cfg : PSUConfig) (s1 s2 : PSUState)
    (resp : List ℕ) (c : Command) (code : ℕ) (h1 : s1.phase = .Ready)
    (h2 : s2.phase = .Ready) (hd : Decode resp = .ok (c, code)) :
    read_voltage cfg s1 resp = read_voltage cfg s2 resp ∧
    read_current cfg s1 resp = read_current cfg s2 resp ∧
    (read_voltage cfg s1 resp).1
        = .ok (CodeToVolts code cfg.max_voltage cfg.max_input_voltage) ∧
    (read_current cfg s1 resp).1
        = .ok (CodeToVolts code cfg.max_current cfg.max_input_voltage) := by
  refine ⟨?_, ?_, ?_, ?_⟩
  · simp only [read_voltage, h1, h2]
  · simp only [read_current, h1, h2]
  · simp only [read_voltage, h1, hd]
  · simp only [read_current, h1, hd]

/-- Witness for C6: two Ready states with different caches receiving the
same well-formed ADC response (code 0x1234) agree on every readback. -/
theorem spec_C6_read_cache_independent_witness :
    ((⟨.Ready, 0, 0, false⟩ : PSUState).phase = .Ready) ∧
    ((⟨.Ready, 29999, 2, true⟩ : PSUState).phase = .Ready) ∧
    (Decode [3, 18, 52, 70] = .ok (.READ_ADC, 4660)) ∧
    (read_voltage ⟨30000, 2, 10, false, false⟩ ⟨.Ready, 0, 0, false⟩
          [3, 18, 52, 70]
        = read_voltage ⟨30000, 2, 10, false, false⟩ ⟨.Ready, 29999, 2, true⟩
          [3, 18, 52, 70] ∧
      read_current ⟨30000, 2, 10, false, false⟩ ⟨.Ready, 0, 0, false⟩
          [3, 18, 52, 70]
        = read_current ⟨30000, 2, 10, false, false⟩ ⟨.Ready, 29999, 2, true⟩
          [3, 18, 52, 70] ∧
      (read_voltage ⟨30000, 2, 10, false, false⟩ ⟨.Ready, 0, 0, false⟩
          [3, 18, 52, 70]).1
        = .ok (CodeToVolts 4660 30000 10) ∧
      (read_current ⟨30000, 2, 10, false, false⟩ ⟨.Ready, 0, 0, false⟩
          [3, 18, 52, 70]).1
        = .ok (CodeToVolts 4660 2 10)) :=
  ⟨rfl, rfl, rfl, spec_C6_read_cache_independent _ _ _ _ _ _ rfl rfl rfl⟩

/-- C10: constructing a HeinzingerVia16BitDAC with no arguments yields the
Heinzinger-like default profile declared in src/headers/Heinzinger.h lines
33-34: max_voltage = 30000 V, max_current = 2, verbose = false and
max_input_voltage = 10 V full-scale, all fixed at construction. -/
theorem spec_C10_constructor_defaults :
    mkHeinzingerDefault = mkHeinzinger 30000 2 false 10 ∧
    mkHeinzingerDefault.max_volt = 30000 ∧
    mkHeinzingerDefault.max_curr = 2 ∧
    mkHeinzingerDefault.verbose = false ∧
    mkHeinzingerDefault.max_analog_in_volt = 10 :=
  ⟨rfl, rfl, rfl, rfl, rfl⟩

/-- C4: closing one open USB handle releases only that handle; every other
open handle (in particular one backed by a distinct device ordinal) stays in
the open set unchanged and remains fully functional for subsequent bulk
transfers. -/
theorem spec_C4_close_frame (ts : TransportState) (h1 h2 : USBHandle)
    (bytes : List ℕ) (hne : h2 ≠ h1) (hopen : h2 ∈ ts.open_handles) :
    h2 ∈ (Close ts h1).open_handles ∧
    WriteBulk (Close ts h1) h2 bytes = .ok bytes.length := by
  have hmem : h2 ∈ (Close ts h1).open_handles := by
    simp only [Close, List.mem_filter]
    exact ⟨hopen, by simpa using hne⟩
  refine ⟨hmem, ?_⟩
  simp only [WriteBulk]
  rw [if_pos hmem]

/-- Witness for C4: open device ordinal 0, then device ordinal 1, then close
the ordinal-0 handle; the ordinal-1 handle stays open and a bulk write on it
still succeeds. -/
theorem spec_C4_close_frame_witness :
    ((⟨1, 0⟩ : USBHandle) ≠ (⟨0, 0⟩ : USBHandle)) ∧
    ((⟨1, 0⟩ : USBHandle)
      ∈ (OpenHandle (OpenHandle ⟨[]⟩ 0).2 1).2.open_handles) ∧
    ((⟨1, 0⟩ : USBHandle)
        ∈ (Close (OpenHandle (OpenHandle ⟨[]⟩ 0).2 1).2 ⟨0, 0⟩).open_handles ∧
      WriteBulk (Close (OpenHandle (OpenHandle ⟨[]⟩ 0).2 1).2 ⟨0, 0⟩) ⟨1, 0⟩
          [171, 205] = .ok 2) :=
  ⟨by decide, by decide, spec_C4_close_frame _ _ _ _ (by decide) (by decide)⟩

/-- C7: for every fixed-layout byte sequence whose recomputed additive
checksum over the payload disagrees with its trailing checksum byte, Decode
fails with ChecksumError; consequently read_voltage on such a corrupted
response returns ChecksumError, never a numeric value, and issues exactly
the single ADC request with no retry. -/
theorem spec_C7_checksum_mismatch (hd b1 b2 ck : ℕ) (cfg : PSUConfig)
    (s : PSUState) (hs : s.phase = .Ready)
    (hck : ck ≠ additiveChecksum [b1, b2]) :
    Decode [hd, b1, b2, ck] = .error .ChecksumError ∧
    read_voltage cfg s [hd, b1, b2, ck]
      = (.error .ChecksumError, [Encode .READ_ADC 0]) := by
  have hdec : Decode [hd, b1, b2, ck] = .error .ChecksumError := by
    simp only [Decode]
    rw [if_neg hck]
  refine ⟨hdec, ?_⟩
  simp only [read_voltage, hs, hdec]

/-- Witness for C7: the response [3, 18, 52, 0] carries checksum byte 0 while
the recomputed payload checksum is 70, so decoding and readback both fail
with ChecksumError. -/
theorem spec_C7_checksum_mismatch_witness :
    ((⟨.Ready, 0, 0, false⟩ : PSUState).phase = .Ready) ∧
    ((0 : ℕ) ≠ additiveChecksum [18, 52]) ∧
    (Decode [3, 18, 52, 0] = .error .ChecksumError ∧
      read_voltage ⟨30000, 2, 10, false, false⟩ ⟨.Ready, 0, 0, false⟩
          [3, 18, 52, 0]
        = (.error .ChecksumError, [Encode .READ_ADC 0])) :=
  ⟨rfl, by decide, spec_C7_checksum_mismatch _ _ _ _ _ _ rfl (by decide)⟩

/-- C8: once GetOrCreate has registered a PSU for a device index, calling it
again with the same index and matching specs returns the same logical
instance and the very same registry — in particular the claim-attempt count
is unchanged, so no second USB claim is attempted — while calling it with
differing specs is reported as SpecMismatchError and the original
registration is never replaced. -/
theorem spec_C8_registry_idempotent (r : Registry) (idx : ℕ)
    (cfg cfg2 : PSUConfig) (pid : ℕ) (r2 : Registry)
    (hok : GetOrCreate r idx cfg = .ok (pid, r2)) (hne : cfg2 ≠ cfg) :
    GetOrCreate r2 idx cfg = .ok (pid, r2) ∧
    GetOrCreate r2 idx cfg2 = .error .SpecMismatchError := by
  cases hfe : findEntry r idx with
  | some e =>
      simp only [GetOrCreate, hfe] at hok
      by_cases hc : e.cfg = cfg
      · rw [if_pos hc] at hok
        simp only [Except.ok.injEq, Prod.mk.injEq] at hok
        obtain ⟨hpid, hr⟩ := hok
        subst hr
        constructor
        · simp [GetOrCreate, hfe, hc, hpid]
        · simp only [GetOrCreate, hfe]
          rw [if_neg (fun h => hne (hc.symm.trans h).symm)]
      · rw [if_neg hc] at hok
        exact absurd hok (by simp)
  | none =>
      simp only [GetOrCreate, hfe, Except.ok.injEq, Prod.mk.injEq] at hok
      obtain ⟨hpid, hr⟩ := hok
      subst hpid
      subst hr
      have hfind : findEntry
          (⟨⟨idx, cfg, r.next_id⟩ :: r.entries, r.next_id + 1,
            r.claim_attempts + 1⟩ : Registry) idx
          = some ⟨idx, cfg, r.next_id⟩ := by
        simp [findEntry, List.find?]
      constructor
      · simp [GetOrCreate, hfind]
      · simp only [GetOrCreate, hfind]
        rw [if_neg (fun h => hne h.symm)]

/-- Witness for C8: registering device index 0 in the empty registry and
calling again with the same specs returns the same instance id 0 and the
unchanged registry (still exactly one claim attempt recorded in it), while a
FUG-like spec on the same index is rejected. -/
theorem spec_C8_registry_idempotent_witness :
    (GetOrCreate ⟨[], 0, 0⟩ 0 ⟨30000, 2, 10, false, false⟩
        = .ok (0, ⟨[⟨0, ⟨30000, 2, 10, false, false⟩, 0⟩], 1, 1⟩)) ∧
    ((⟨50000, 1/2, 10, true, false⟩ : PSUConfig)
        ≠ (⟨30000, 2, 10, false, false⟩ : PSUConfig)) ∧
    (GetOrCreate ⟨[⟨0, ⟨30000, 2, 10, false, false⟩, 0⟩], 1, 1⟩ 0
          ⟨30000, 2, 10, false, false⟩
        = .ok (0, ⟨[⟨0, ⟨30000, 2, 10, false, false⟩, 0⟩], 1, 1⟩) ∧
      GetOrCreate ⟨[⟨0, ⟨30000, 2, 10, false, false⟩, 0⟩], 1, 1⟩ 0
          ⟨50000, 1/2, 10, true, false⟩
        = .error .SpecMismatchError) :=
  ⟨rfl, by decide,
    spec_C8_registry_idempotent ⟨[], 0, 0⟩ 0 ⟨30000, 2, 10, false, false⟩
      ⟨50000, 1/2, 10, true, false⟩ 0
      ⟨[⟨0, ⟨30000, 2, 10, false, false⟩, 0⟩], 1, 1⟩ rfl (by decide)⟩

/-- Rounding a value that is already an integer leaves it unchanged. -/
theorem rhafz_intCast (n : ℤ) : roundHalfAwayFromZero (n : ℚ) = n := by
  unfold roundHalfAwayFromZero
  split
  · rw [add_comm, Int.floor_add_int]
    norm_num
  · rw [sub_eq_add_neg, add_comm, Int.ceil_add_int]
    norm_num

/-- Round half away from zero is monotone. -/
theorem rhafz_mono {x y : ℚ} (h : x ≤ y) :
    roundHalfAwayFromZero x ≤ roundHalfAwayFromZero y := by
  unfold roundHalfAwayFromZero
  by_cases hx : 0 ≤ x
  · rw [if_pos hx, if_pos (le_trans hx h)]
    exact Int.floor_mono (by linarith)
  · rw [if_neg hx]
    by_cases hy : 0 ≤ y
    · rw [if_pos hy]
      have h1 : (⌈x - 1/2⌉ : ℤ) ≤ 0 := Int.ceil_le.mpr (by push_cast; linarith)
      have h2 : (0 : ℤ) ≤ ⌊y + 1/2⌋ := Int.floor_nonneg.mpr (by linarith)
      omega
    · rw [if_neg hy]
      exact Int.ceil_mono (by linarith)

/-- Clamping to [0, 65535] is monotone. -/
theorem clampCode_mono {a b : ℤ} (h : a ≤ b) : clampCode a ≤ clampCode b :=
  max_le_max le_rfl (min_le_min h le_rfl)

/-- Clamping is the identity on codes already inside [0, 65535]. -/
theorem clampCode_eq_self {a : ℤ} (h0 : 0 ≤ a) (h1 : a ≤ 65535) :
    clampCode a = a := by
  unfold clampCode
  rw [min_eq_left h1, max_eq_right h0]

/-- The forward scaling simplifies to v * 65535 / mp once the
max_input_voltage over full-scale-reference ratio cancels. -/
theorem conv_scale (v mp miv : ℚ) (hmiv : miv ≠ 0) :
    v / mp * miv / full_scale_reference miv * 65535 = v * 65535 / mp := by
  rw [full_scale_reference, mul_div_assoc, div_self hmiv, mul_one,
    div_mul_eq_mul_div]

/-- The readback scaling simplifies to code * mp / 65535. -/
theorem codeToVolts_eq (code : ℤ) (mp miv : ℚ) (hmiv : miv ≠ 0) :
    CodeToVolts code mp miv = (code : ℚ) * mp / 65535 := by
  rw [CodeToVolts, full_scale_reference, mul_div_assoc, div_self hmiv,
    mul_one, div_mul_eq_mul_div]

/-- C2: for every valid PSU configuration (nonzero max_physical and
max_input_voltage), VoltsToCode maps the physical boundaries exactly:
VoltsToCode 0 = 0 and VoltsToCode max_physical = 65535, as exact integer
equalities. -/
theorem spec_C2_boundary (mp miv : ℚ) (hmp : mp ≠ 0) (hmiv : miv ≠ 0) :
    VoltsToCode 0 mp miv = 0 ∧ VoltsToCode mp mp miv = 65535 := by
  constructor
  · rw [VoltsToCode, conv_scale _ _ _ hmiv]
    norm_num
    rw [show ((0 : ℚ)) = ((0 : ℤ) : ℚ) by norm_num, rhafz_intCast]
    rfl
  · rw [VoltsToCode, conv_scale _ _ _ hmiv, mul_comm, mul_div_assoc,
      div_self hmp, mul_one]
    rw [show ((65535 : ℚ)) = ((65535 : ℤ) : ℚ) by norm_num, rhafz_intCast]
    rfl

/-- Witness for C2 at the Heinzinger-like configuration max_physical =
30000 V, max_input_voltage = 10 V. -/
theorem spec_C2_boundary_witness :
    ((30000 : ℚ) ≠ 0) ∧ ((10 : ℚ) ≠ 0) ∧
    (VoltsToCode 0 30000 10 = 0 ∧ VoltsToCode 30000 30000 10 = 65535) :=
  ⟨by norm_num, by norm_num,
    spec_C2_boundary 30000 10 (by norm_num) (by norm_num)⟩

/-- C3: for a valid configuration, VoltsToCode is monotone non-decreasing on
[0, max_physical], and the round trip CodeToVolts (VoltsToCode v) stays
within one quantization step (max_physical / 65535) of v. -/
theorem spec_C3_mono_roundtrip (mp miv v1 v2 v : ℚ) (hmp : 0 < mp)
    (hmiv : 0 < miv) (h10 : 0 ≤ v1) (h12 : v1 ≤ v2) (h2mp : v2 ≤ mp)
    (hv0 : 0 ≤ v) (hvmp : v ≤ mp) :
    VoltsToCode v1 mp miv ≤ VoltsToCode v2 mp miv ∧
    |CodeToVolts (VoltsToCode v mp miv) mp miv - v| ≤ mp / 65535 := by
  have hmp0 : mp ≠ 0 := ne_of_gt hmp
  have hmiv0 : miv ≠ 0 := ne_of_gt hmiv
  constructor
  · rw [VoltsToCode, VoltsToCode, conv_scale _ _ _ hmiv0,
      conv_scale _ _ _ hmiv0]
    apply clampCode_mono
    apply rhafz_mono
    apply (div_le_div_iff_of_pos_right hmp).mpr
    nlinarith
  · set t := v * 65535 / mp with ht
    have ht0 : 0 ≤ t := by positivity
    have ht65535 : t ≤ 65535 := by
      rw [ht, div_le_iff₀ hmp]
      nlinarith
    have hr_eq : roundHalfAwayFromZero t = ⌊t + 1/2⌋ := by
      unfold roundHalfAwayFromZero
      rw [if_pos ht0]
    set r : ℤ := ⌊t + 1/2⌋ with hr
    have hr0 : 0 ≤ r := Int.floor_nonneg.mpr (by linarith)
    have hr65535 : r ≤ 65535 := by
      have hlt : r < 65536 := Int.floor_lt.mpr
        (show t + 1/2 < ((65536 : ℤ) : ℚ) by push_cast; linarith)
      omega
    have hcode : VoltsToCode v mp miv = r := by
      rw [VoltsToCode, conv_scale _ _ _ hmiv0, ← ht, hr_eq,
        clampCode_eq_self hr0 hr65535]
    have hfl : (r : ℚ) ≤ t + 1/2 := Int.floor_le _
    have hfu : t + 1/2 < r + 1 := Int.lt_floor_add_one _
    have habs : |(r : ℚ) - t| ≤ 1/2 := abs_le.mpr ⟨by linarith, by linarith⟩
    have hveq : t * mp / 65535 = v := by
      rw [ht]
      field_simp
    have hdiff : CodeToVolts (VoltsToCode v mp miv) mp miv - v
        = ((r : ℚ) - t) * (mp / 65535) := by
      rw [hcode, codeToVolts_eq _ _ _ hmiv0, ← hveq]
      ring
    rw [hdiff, abs_mul, abs_of_nonneg (by positivity : (0:ℚ) ≤ mp / 65535)]
    have h1 := mul_le_mul_of_nonneg_right habs
      (by positivity : (0:ℚ) ≤ mp / 65535)
    have h2 : (0:ℚ) ≤ mp / 65535 := by positivity
    linarith

/-- Witness for C3 at the Heinzinger-like configuration, with v1 = 100,
v2 = 5000 and round-trip point v = 5000. -/
theorem spec_C3_mono_roundtrip_witness :
    ((0 : ℚ) < 30000) ∧ ((0 : ℚ) < 10) ∧ ((0 : ℚ) ≤ 100) ∧
    ((100 : ℚ) ≤ 5000) ∧ ((5000 : ℚ) ≤ 30000) ∧ ((0 : ℚ) ≤ 5000) ∧
    ((5000 : ℚ) ≤ 30000) ∧
    (VoltsToCode 100 30000 10 ≤ VoltsToCode 5000 30000 10 ∧
      |CodeToVolts (VoltsToCode 5000 30000 10) 30000 10 - 5000|
        ≤ 30000 / 65535) :=
  ⟨by norm_num, by norm_num, by norm_num, by norm_num, by norm_num,
    by norm_num, by norm_num,
    spec_C3_mono_roundtrip 30000 10 100 5000 5000 (by norm_num) (by norm_num)
      (by norm_num) (by norm_num) (by norm_num) (by norm_num) (by norm_num)⟩

/-- The running count of the enumeration loop equals the accumulator plus the
number of matching devices in the remaining list. -/
theorem count_aux (devs : List DeviceSlot) (acc : ℕ) :
    devs.foldl (fun a d => if isTargetDevice d then a + 1 else a) acc
      = acc + (devs.filter isTargetDevice).length := by
  induction devs generalizing acc with
  | nil => simp
  | cons d rest ih =>
      by_cases hd : isTargetDevice d
      · simp [List.foldl, List.filter_cons, hd, ih]
        omega
      · simp [List.foldl, List.filter_cons, hd, ih]

/-- Walking the device list with a skip counter agrees with indexing the
list of matching positions. -/
theorem openSkipAux_eq (devs : List DeviceSlot) (pos n : ℕ) :
    openSkipAux devs pos n
      = match (targetPositionsFrom devs pos)[n]? with
        | some i => .ok i
        | none => .error .DeviceNotFoundError := by
  induction devs generalizing pos n with
  | nil => simp [openSkipAux, targetPositionsFrom]
  | cons d rest ih =>
      by_cases hd : isTargetDevice d
      · cases n with
        | zero => simp [openSkipAux, targetPositionsFrom, hd]
        | succ m => simp [openSkipAux, targetPositionsFrom, hd, ih]
      · simp [openSkipAux, targetPositionsFrom, hd, ih]

/-- Every position returned by the skip walk carries a readable, matching
descriptor. -/
theorem openSkipAux_matches (devs : List DeviceSlot) (pos n i : ℕ)
    (h : openSkipAux devs pos n = .ok i) :
    ∃ j, i = pos + j ∧ isTargetDevice ((devs[j]?).getD none) = true := by
  induction devs generalizing pos n with
  | nil => simp [openSkipAux] at h
  | cons d rest ih =>
      unfold openSkipAux at h
      by_cases hd : isTargetDevice d
      · rw [if_pos hd] at h
        cases n with
        | zero =>
            refine ⟨0, ?_, ?_⟩
            · injection h with h
              omega
            · simpa using hd
        | succ m =>
            obtain ⟨j, hij, hj⟩ := ih (pos + 1) m h
            exact ⟨j + 1, by omega, by simpa using hj⟩
      · rw [if_neg hd] at h
        obtain ⟨j, hij, hj⟩ := ih (pos + 1) n h
        exact ⟨j + 1, by omega, by simpa using hj⟩

/-- C9: device identification selects exactly the devices whose descriptor
reports vendor id 0xA0A0 and product id 0x000C, walking them in
platform-reported order.  The reported board count equals the number of
matching devices in the list, and when Open with skip_count = n succeeds at
position i, that position is the Nth entry of the matching-position list and
its descriptor is readable and matching — so unreadable or non-matching
devices are never counted or opened. -/
theorem spec_C9_enumeration (devs : List DeviceSlot) (n i : ℕ)
    (hopen : openSkip devs n = .ok i) :
    target_device_count devs = (devs.filter isTargetDevice).length ∧
    (targetPositions devs)[n]? = some i ∧
    isTargetDevice ((devs[i]?).getD none) = true := by
  have hmatch := openSkipAux_matches devs 0 n i hopen
  refine ⟨?_, ?_, ?_⟩
  · simpa [target_device_count] using count_aux devs 0
  · have h := openSkipAux_eq devs 0 n
    unfold openSkip at hopen
    rw [hopen] at h
    have hTP : targetPositionsFrom devs 0 = targetPositions devs := rfl
    rw [hTP] at h
    cases hg : (targetPositions devs)[n]? with
    | some j =>
        rw [hg] at h
        injection h with h
        rw [h]
    | none =>
        rw [hg] at h
        exact absurd h (by simp)
  · obtain ⟨j, hij, hj⟩ := hmatch
    have hji : j = i := by omega
    rwa [hji] at hj

/-- Witness for C9 on a four-slot device list — a matching board, an
unreadable descriptor, a non-matching device, a second matching board:
skip_count 1 opens position 3 and the utility counts two boards. -/
theorem spec_C9_enumeration_witness :
    (openSkip [some ⟨0xA0A0, 0x000C⟩, none, some ⟨0x1234, 0x0001⟩,
        some ⟨0xA0A0, 0x000C⟩] 1 = .ok 3) ∧
    (target_device_count [some ⟨0xA0A0, 0x000C⟩, none, some ⟨0x1234, 0x0001⟩,
          some ⟨0xA0A0, 0x000C⟩]
        = ([some ⟨0xA0A0, 0x000C⟩, none, some ⟨0x1234, 0x0001⟩,
            some ⟨0xA0A0, 0x000C⟩].filter isTargetDevice).length ∧
      (targetPositions [some ⟨0xA0A0, 0x000C⟩, none, some ⟨0x1234, 0x0001⟩,
          some ⟨0xA0A0, 0x000C⟩])[1]? = some 3 ∧
      isTargetDevice (([some ⟨0xA0A0, 0x000C⟩, none, some ⟨0x1234, 0x0001⟩,
          some ⟨0xA0A0, 0x000C⟩][3]?).getD none) = true) :=
  ⟨rfl, spec_C9_enumeration _ 1 3 rfl⟩

end ADCBoard
